import Mathlib

/-!
Verification of the "Command Runner" library (`src/lib.rs`).

The library runs a command line through `sh -c`, captures stdout/stderr,
and classifies the outcome.  The OS interaction is embedded as an
explicit parameter `os : String → SpawnOutcome` giving, for each command
line, what the single spawned process did (or that spawning/awaiting
failed).  Every library function is then a pure Lean function of `os`,
translated clause by clause from the Rust source.  The `eprintln!` side
effect of the silent wrapper is modelled by returning the list of lines
written to the diagnostic stream alongside the boolean result.
-/

/-- Tests whether a byte is a UTF-8 continuation byte (`0x80..=0xBF`). -/
def utf8Cont (b : Nat) : Bool := 0x80 ≤ b && b ≤ 0xBF

/-- UTF-8 decoding of a byte sequence, mirroring the validation performed
by Rust `String::from_utf8` (rejecting overlong encodings, surrogates and
code points above `U+10FFFF`).  Returns `none` exactly when the bytes are
not valid UTF-8. -/
def utf8Decode : List Nat → Option (List Char)
  | [] => some []
  | b1 :: rest =>
    if b1 ≤ 0x7F then
      (utf8Decode rest).map (fun cs => Char.ofNat b1 :: cs)
    else if 0xC2 ≤ b1 && b1 ≤ 0xDF then
      match rest with
      | b2 :: rest2 =>
        if utf8Cont b2 then
          (utf8Decode rest2).map
            (fun cs => Char.ofNat ((b1 - 0xC0) * 0x40 + (b2 - 0x80)) :: cs)
        else none
      | [] => none
    else if 0xE0 ≤ b1 && b1 ≤ 0xEF then
      match rest with
      | b2 :: b3 :: rest3 =>
        if (if b1 = 0xE0 then 0xA0 ≤ b2 && b2 ≤ 0xBF
            else if b1 = 0xED then 0x80 ≤ b2 && b2 ≤ 0x9F
            else utf8Cont b2) && utf8Cont b3 then
          (utf8Decode rest3).map
            (fun cs =>
              Char.ofNat ((b1 - 0xE0) * 0x1000 + (b2 - 0x80) * 0x40 + (b3 - 0x80)) :: cs)
        else none
      | _ => none
    else if 0xF0 ≤ b1 && b1 ≤ 0xF4 then
      match rest with
      | b2 :: b3 :: b4 :: rest4 =>
        if (if b1 = 0xF0 then 0x90 ≤ b2 && b2 ≤ 0xBF
            else if b1 = 0xF4 then 0x80 ≤ b2 && b2 ≤ 0x8F
            else utf8Cont b2) && utf8Cont b3 && utf8Cont b4 then
          (utf8Decode rest4).map
            (fun cs =>
              Char.ofNat ((b1 - 0xF0) * 0x40000 + (b2 - 0x80) * 0x1000 +
                (b3 - 0x80) * 0x40 + (b4 - 0x80)) :: cs)
        else none
      | _ => none
    else none

/-- Model of `std::string::FromUtf8Error`: it owns the offending byte
vector.  Its `Display` text (a std-library rendering, not code of this
repository) is abstracted by `displayText` below. -/
structure FromUtf8Error where
  bytes : List Nat
deriving Repr, DecidableEq

/-- Display text of the inner UTF-8 error.  The exact message is produced
by the Rust standard library, outside this repository; the model only
needs it to be a function of the error value. -/
def FromUtf8Error.displayText (_e : FromUtf8Error) : String :=
  "invalid utf-8 sequence"

/-- Model of Rust `String::from_utf8`: decode the bytes, or return the
`FromUtf8Error` carrying them. -/
def string_from_utf8 (bytes : List Nat) : Except FromUtf8Error String :=
  match utf8Decode bytes with
  | some cs => .ok (String.mk cs)
  | none => .error ⟨bytes⟩

/-- Model of `std::process::Output`: exit status plus the fully captured
stdout and stderr byte streams.  An `io::Error` is represented by its
OS-level description string, which is also its display text. -/
structure ProcOutput where
  status_code : Int
  stdout : List Nat
  stderr : List Nat
deriving Repr, DecidableEq

/-- `ExitStatus::success()`: the process terminated with code 0. -/
def ProcOutput.status_success (o : ProcOutput) : Bool := o.status_code == 0

/-- What the OS did for one `sh -c <command_line>` invocation: either the
process ran to completion with captured output, or spawning/awaiting it
failed with an `io::Error` (represented by its description). -/
inductive SpawnOutcome where
  | ok : ProcOutput → SpawnOutcome
  | err : String → SpawnOutcome
deriving Repr, DecidableEq

/-- The `Errors` enum of `src/lib.rs`.  The `io` constructor corresponds
to `Errors::IO`; the inner `io::Error` is represented by its description
string. -/
inductive Errors where
  | FromUtf8 : FromUtf8Error → Errors
  | io : String → Errors
  | Custom : String → Errors
  | STDERR : String → Errors
deriving Repr, DecidableEq

/-- The `impl fmt::Display for Errors`: `FromUtf8` and `IO` delegate to
the inner error's own display; `Custom` and `STDERR` render with the
format string `"ERROR: \x7b\x7d)"`. -/
def Errors.displayText : Errors → String
  | .FromUtf8 e => e.displayText
  | .io e => e
  | .Custom e => "ERROR: " ++ e ++ ")"
  | .STDERR e => "ERROR: " ++ e ++ ")"

/-- The tuple struct `CommandOutput(String, u8)`. -/
structure CommandOutput where
  fst : String
  snd : Nat
deriving Repr, DecidableEq

/-- `CommandOutput::output`, returning field `.0`. -/
def CommandOutput.output (o : CommandOutput) : String := o.fst

/-- `CommandOutput.exit_code`, returning field `.1`. -/
def CommandOutput.exit_code (o : CommandOutput) : Nat := o.snd

/-- `execute_command` from `src/lib.rs`: run `sh -c <command_line>`
(whose behaviour the parameter `os` supplies), map a spawn/await failure
to `Errors::IO`, and otherwise decode stderr (on failure status, with
indicator 1) or stdout (on success status, with indicator 0), where the
`?` on `String::from_utf8` converts a decode error into
`Errors::FromUtf8`. -/
def execute_command (os : String → SpawnOutcome) (command_line : String) :
    Except Errors CommandOutput :=
  match os command_line with
  | .ok output =>
    if !output.status_success then
      match string_from_utf8 output.stderr with
      | .error e => .error (.FromUtf8 e)
      | .ok s => .ok ⟨s, 1⟩
    else
      match string_from_utf8 output.stdout with
      | .error e => .error (.FromUtf8 e)
      | .ok s => .ok ⟨s, 0⟩
  | .err err => .error (.io err)

/-- `sh` from `src/lib.rs`: run the primitive, turn an indicator-1 output
into `Errors::STDERR` carrying its text, pass indicator-0 text through,
and propagate primitive errors unchanged. -/
def sh (os : String → SpawnOutcome) (command_line : String) :
    Except Errors String :=
  match execute_command os command_line with
  | .ok output =>
    let content := output.output
    if output.snd == 1 then .error (.STDERR content) else .ok content
  | .error err => .error err

/-- `execute_command_silent` from `src/lib.rs`.  The first component is
the returned boolean; the second lists the lines written by `eprintln!`
to the diagnostic stream during the call. -/
def execute_command_silent (os : String → SpawnOutcome)
    (command_line : String) (log_stderr : Bool) : Bool × List String :=
  match execute_command os command_line with
  | .ok output =>
    if output.exit_code > 0 then
      (false, if log_stderr then [output.output] else [])
    else
      (true, [])
  | .error err => (false, [err.displayText])

/-- `command_exists` from `src/lib.rs`: delegate to the silent wrapper on
the synthesized line `command -v <command>` with logging disabled. -/
def command_exists (os : String → SpawnOutcome) (command : String) :
    Bool × List String :=
  execute_command_silent os ("command -v " ++ command) false

/-! Theorems about the claims.  Each `os` parameter ranges over every
possible behaviour of the operating system, so a theorem quantified over
`os` covers every spawn failure, exit status and captured byte stream. -/

/-- C1: for every command line, `execute_command` satisfies the primitive
contract: a spawn/await failure becomes the IO error carrying the OS
error; a failure exit decodes stderr (a decode error on invalid UTF-8,
otherwise `Ok` output with indicator 1); a success exit decodes stdout
the same way with indicator 0. -/
theorem execute_command_contract (os : String → SpawnOutcome) (cl : String) :
    (∀ e, os cl = .err e → execute_command os cl = .error (.io e)) ∧
    (∀ o, os cl = .ok o → o.status_success = false →
      (∀ e, string_from_utf8 o.stderr = .error e →
        execute_command os cl = .error (.FromUtf8 e)) ∧
      (∀ s, string_from_utf8 o.stderr = .ok s →
        execute_command os cl = .ok ⟨s, 1⟩)) ∧
    (∀ o, os cl = .ok o → o.status_success = true →
      (∀ e, string_from_utf8 o.stdout = .error e →
        execute_command os cl = .error (.FromUtf8 e)) ∧
      (∀ s, string_from_utf8 o.stdout = .ok s →
        execute_command os cl = .ok ⟨s, 0⟩)) := by
  refine ⟨?_, ?_, ?_⟩
  · intro e h
    simp [execute_command, h]
  · intro o h hs
    constructor
    · intro e hd
      simp [execute_command, h, hs, hd]
    · intro s hd
      simp [execute_command, h, hs, hd]
  · intro o h hs
    constructor
    · intro e hd
      simp [execute_command, h, hs, hd]
    · intro s hd
      simp [execute_command, h, hs, hd]

/-- Witness for C1: a process that exits 0 printing the bytes of `hi`
yields `Ok` output `hi` with indicator 0. -/
theorem execute_command_contract_witness :
    execute_command (fun _ => SpawnOutcome.ok ⟨0, [104, 105], []⟩) "echo hi" =
      .ok ⟨"hi", 0⟩ :=
  ((execute_command_contract (fun _ => SpawnOutcome.ok ⟨0, [104, 105], []⟩)
      "echo hi").2.2 ⟨0, [104, 105], []⟩ rfl rfl).2 "hi" (by rfl)

/-- C2: `sh` propagates a primitive error unchanged, returns the decoded
text on indicator 0, and turns indicator 1 into `Errors.STDERR` carrying
exactly the captured error text. -/
theorem sh_contract (os : String → SpawnOutcome) (cl : String) :
    (∀ e, execute_command os cl = .error e → sh os cl = .error e) ∧
    (∀ o, execute_command os cl = .ok o → o.exit_code = 0 →
      sh os cl = .ok o.output) ∧
    (∀ o, execute_command os cl = .ok o → o.exit_code = 1 →
      sh os cl = .error (.STDERR o.output)) := by
  refine ⟨?_, ?_, ?_⟩
  · intro e h
    simp [sh, h]
  · intro o h hc
    simp [CommandOutput.exit_code] at hc
    simp [sh, h, hc]
  · intro o h hc
    simp [CommandOutput.exit_code] at hc
    simp [sh, h, hc]

/-- Witness for C2: a process that exits 2 writing `bad` on stderr makes
`sh` return `Errors.STDERR` with payload `bad`. -/
theorem sh_contract_witness :
    sh (fun _ => SpawnOutcome.ok ⟨2, [], [98, 97, 100]⟩) "boom" =
      .error (.STDERR "bad") :=
  (sh_contract (fun _ => SpawnOutcome.ok ⟨2, [], [98, 97, 100]⟩) "boom").2.2
    ⟨"bad", 1⟩ (by rfl) rfl

/-- C3: `execute_command_silent` reduces every primitive outcome to a
boolean, for any logging flag: `false` on a primitive error, `false` on
indicator 1 regardless of the flag, and `true` on indicator 0.  Its
return type carries no error value, so no error is ever propagated. -/
theorem execute_command_silent_boolean (os : String → SpawnOutcome) (cl : String)
    (flag : Bool) :
    (∀ e, execute_command os cl = .error e →
      (execute_command_silent os cl flag).1 = false) ∧
    (∀ o, execute_command os cl = .ok o → o.exit_code = 1 →
      (execute_command_silent os cl flag).1 = false) ∧
    (∀ o, execute_command os cl = .ok o → o.exit_code = 0 →
      (execute_command_silent os cl flag).1 = true) := by
  refine ⟨?_, ?_, ?_⟩
  · intro e h
    simp [execute_command_silent, h]
  · intro o h hc
    simp [execute_command_silent, h, hc]
  · intro o h hc
    simp [execute_command_silent, h, hc]

/-- Witness for C3: a command that exits non-zero makes the silent
wrapper return `false` even with logging enabled. -/
theorem execute_command_silent_boolean_witness :
    (execute_command_silent (fun _ => SpawnOutcome.ok ⟨2, [], [98, 97, 100]⟩)
      "boom" true).1 = false :=
  (execute_command_silent_boolean (fun _ => SpawnOutcome.ok ⟨2, [], [98, 97, 100]⟩)
    "boom" true).2.1 ⟨"bad", 1⟩ (by rfl) rfl

/-- C4: logging asymmetry of the silent wrapper.  On command-reported
failure (indicator 1) nothing is written with the flag off and exactly
the captured text is written with the flag on; on a primitive error the
error display text is written whatever the flag. -/
theorem execute_command_silent_logging (os : String → SpawnOutcome) (cl : String) :
    (∀ o, execute_command os cl = .ok o → o.exit_code = 1 →
      (execute_command_silent os cl false).2 = [] ∧
      (execute_command_silent os cl true).2 = [o.output]) ∧
    (∀ e, execute_command os cl = .error e → ∀ flag,
      (execute_command_silent os cl flag).2 = [e.displayText]) := by
  constructor
  · intro o h hc
    constructor
    · simp [execute_command_silent, h, hc]
    · simp [execute_command_silent, h, hc]
  · intro e h flag
    simp [execute_command_silent, h]

/-- Witness for C4: with logging disabled, a command-reported failure
writes nothing to the diagnostic stream. -/
theorem execute_command_silent_logging_witness :
    (execute_command_silent (fun _ => SpawnOutcome.ok ⟨2, [], [98, 97, 100]⟩)
      "boom" false).2 = [] :=
  ((execute_command_silent_logging (fun _ => SpawnOutcome.ok ⟨2, [], [98, 97, 100]⟩)
    "boom").1 ⟨"bad", 1⟩ (by rfl) rfl).1

/-- C5: when the process ran, the primitive returns a decode error
exactly when the captured bytes of the stream it decodes (stdout on
success status, stderr on failure status) are not valid UTF-8 —
independent of the exit status. -/
theorem execute_command_decode_error_iff (os : String → SpawnOutcome) (cl : String)
    (o : ProcOutput) (h : os cl = .ok o) :
    (∃ e, execute_command os cl = .error (.FromUtf8 e)) ↔
      utf8Decode (if o.status_success then o.stdout else o.stderr) = none := by
  cases hs : o.status_success with
  | false =>
    cases hd : utf8Decode o.stderr with
    | none => simp [execute_command, h, hs, string_from_utf8, hd]
    | some cs => simp [execute_command, h, hs, string_from_utf8, hd]
  | true =>
    cases hd : utf8Decode o.stdout with
    | none => simp [execute_command, h, hs, string_from_utf8, hd]
    | some cs => simp [execute_command, h, hs, string_from_utf8, hd]

/-- Witness for C5: the lone byte `0xFF` is invalid UTF-8, and a zero
exit printing it on stdout makes the primitive return a decode error. -/
theorem execute_command_decode_error_iff_witness :
    (∃ e, execute_command (fun _ => SpawnOutcome.ok ⟨0, [0xFF], []⟩) "x" =
      .error (.FromUtf8 e)) :=
  (execute_command_decode_error_iff (fun _ => SpawnOutcome.ok ⟨0, [0xFF], []⟩)
    "x" ⟨0, [0xFF], []⟩ rfl).mpr (by rfl)

/-- C6: the two wrappers agree on the same invocation outcome: exit 0
with decodable stdout gives `sh` exactly the decoded text and the silent
wrapper `true`; a non-zero exit with decodable stderr gives `sh` an
`Errors.STDERR` error and the silent wrapper `false`. -/
theorem wrappers_agree (os : String → SpawnOutcome) (cl : String) (o : ProcOutput)
    (h : os cl = .ok o) :
    (o.status_code = 0 → ∀ s, string_from_utf8 o.stdout = .ok s →
      sh os cl = .ok s ∧
      ∀ flag, (execute_command_silent os cl flag).1 = true) ∧
    (o.status_code ≠ 0 → ∀ s, string_from_utf8 o.stderr = .ok s →
      sh os cl = .error (.STDERR s) ∧
      ∀ flag, (execute_command_silent os cl flag).1 = false) := by
  constructor
  · intro hz s hd
    have hs : o.status_success = true := by
      simp [ProcOutput.status_success, hz]
    have hx : execute_command os cl = .ok ⟨s, 0⟩ := by
      simp [execute_command, h, hs, hd]
    constructor
    · simp [sh, hx, CommandOutput.output]
    · intro flag
      simp [execute_command_silent, hx, CommandOutput.exit_code]
  · intro hz s hd
    have hs : o.status_success = false := by
      simp [ProcOutput.status_success, hz]
    have hx : execute_command os cl = .ok ⟨s, 1⟩ := by
      simp [execute_command, h, hs, hd]
    constructor
    · simp [sh, hx, CommandOutput.output]
    · intro flag
      simp [execute_command_silent, hx, CommandOutput.exit_code]

/-- Witness for C6: a zero exit printing `hi` gives `sh` the text `hi`
and the silent wrapper `true`. -/
theorem wrappers_agree_witness :
    sh (fun _ => SpawnOutcome.ok ⟨0, [104, 105], []⟩) "echo hi" = .ok "hi" ∧
    (execute_command_silent (fun _ => SpawnOutcome.ok ⟨0, [104, 105], []⟩)
      "echo hi" false).1 = true := by
  have h := ((wrappers_agree (fun _ => SpawnOutcome.ok ⟨0, [104, 105], []⟩)
    "echo hi" ⟨0, [104, 105], []⟩ rfl).1 rfl "hi" (by rfl))
  exact ⟨h.1, h.2 false⟩

/-- C7: `command_exists` is exactly the silent wrapper applied to the
synthesized line `command -v ` followed by the name, with logging
disabled; it adds no logic of its own. -/
theorem command_exists_delegates (os : String → SpawnOutcome) (c : String) :
    command_exists os c = execute_command_silent os ("command -v " ++ c) false := rfl

/-- Helper (not claim-specific): every error the primitive returns is a
decode error or an IO error. -/
theorem execute_command_error_cases_aux (os : String → SpawnOutcome) (cl : String)
    (e : Errors) (he : execute_command os cl = .error e) :
    (∃ u, e = .FromUtf8 u) ∨ (∃ m, e = .io m) := by
  cases ho : os cl with
  | err m =>
    right
    simp [execute_command, ho] at he
    exact ⟨m, he.symm⟩
  | ok o =>
    cases hs : o.status_success with
    | false =>
      cases hd : string_from_utf8 o.stderr with
      | error u =>
        left
        simp [execute_command, ho, hs, hd] at he
        exact ⟨u, he.symm⟩
      | ok s => simp [execute_command, ho, hs, hd] at he
    | true =>
      cases hd : string_from_utf8 o.stdout with
      | error u =>
        left
        simp [execute_command, ho, hs, hd] at he
        exact ⟨u, he.symm⟩
      | ok s => simp [execute_command, ho, hs, hd] at he

/-- C8: every `CommandOutput` the primitive constructs has a binary
indicator — 0 or 1, with 0 exactly when the process exited successfully,
so the actual exit code is never surfaced — and its text is exactly the
decoded stdout when the indicator is 0 and the decoded stderr when it
is 1. -/
theorem commandOutput_invariant (os : String → SpawnOutcome) (cl : String)
    (co : CommandOutput) (h : execute_command os cl = .ok co) :
    (co.exit_code = 0 ∨ co.exit_code = 1) ∧
    ∀ o, os cl = .ok o →
      (co.exit_code = 0 ↔ o.status_success = true) ∧
      (co.exit_code = 0 → string_from_utf8 o.stdout = .ok co.output) ∧
      (co.exit_code = 1 → string_from_utf8 o.stderr = .ok co.output) := by
  cases ho : os cl with
  | err m => simp [execute_command, ho] at h
  | ok o0 =>
    cases hs : o0.status_success with
    | false =>
      cases hd : string_from_utf8 o0.stderr with
      | error u => simp [execute_command, ho, hs, hd] at h
      | ok s =>
        simp [execute_command, ho, hs, hd] at h
        subst h
        refine ⟨Or.inr rfl, ?_⟩
        intro o hoo
        injection hoo with h2
        subst h2
        refine ⟨?_, ?_, ?_⟩
        · simp [CommandOutput.exit_code, hs]
        · intro hc
          simp [CommandOutput.exit_code] at hc
        · intro _
          simpa [CommandOutput.output] using hd
    | true =>
      cases hd : string_from_utf8 o0.stdout with
      | error u => simp [execute_command, ho, hs, hd] at h
      | ok s =>
        simp [execute_command, ho, hs, hd] at h
        subst h
        refine ⟨Or.inl rfl, ?_⟩
        intro o hoo
        injection hoo with h2
        subst h2
        refine ⟨?_, ?_, ?_⟩
        · simp [CommandOutput.exit_code, hs]
        · intro _
          simpa [CommandOutput.output] using hd
        · intro hc
          simp [CommandOutput.exit_code] at hc

/-- Witness for C8: a process exiting with code 7 still yields indicator
0 or 1 (here 1), never the raw code. -/
theorem commandOutput_invariant_witness :
    ((⟨"bad", 1⟩ : CommandOutput).exit_code = 0 ∨
      (⟨"bad", 1⟩ : CommandOutput).exit_code = 1) :=
  (commandOutput_invariant (fun _ => SpawnOutcome.ok ⟨7, [], [98, 97, 100]⟩)
    "boom" ⟨"bad", 1⟩ (by rfl)).1

/-- C9: the `Custom` variant is unreachable through the public
interface: every error returned by `execute_command` or `sh` (hence
every error the silent wrapper logs) is a decode error, an IO error or
`STDERR`. -/
theorem custom_unreachable (os : String → SpawnOutcome) (cl : String) :
    (∀ e, execute_command os cl = .error e →
      (∃ u, e = .FromUtf8 u) ∨ (∃ m, e = .io m) ∨ (∃ s, e = .STDERR s)) ∧
    (∀ e, sh os cl = .error e →
      (∃ u, e = .FromUtf8 u) ∨ (∃ m, e = .io m) ∨ (∃ s, e = .STDERR s)) := by
  constructor
  · intro e he
    rcases execute_command_error_cases_aux os cl e he with h | h
    · exact Or.inl h
    · exact Or.inr (Or.inl h)
  · intro e he
    cases hx : execute_command os cl with
    | error e0 =>
      simp [sh, hx] at he
      subst he
      rcases execute_command_error_cases_aux os cl e0 hx with h | h
      · exact Or.inl h
      · exact Or.inr (Or.inl h)
    | ok o =>
      by_cases hc : o.snd = 1
      · simp [sh, hx, hc] at he
        exact Or.inr (Or.inr ⟨o.output, he.symm⟩)
      · simp [sh, hx, hc] at he

/-- Witness for C9: a decode failure classifies as one of the three
public error kinds. -/
theorem custom_unreachable_witness :
    (∃ u, (Errors.FromUtf8 ⟨[0xFF]⟩ : Errors) = .FromUtf8 u) ∨
    (∃ m, (Errors.FromUtf8 ⟨[0xFF]⟩ : Errors) = .io m) ∨
    (∃ s, (Errors.FromUtf8 ⟨[0xFF]⟩ : Errors) = .STDERR s) :=
  (custom_unreachable (fun _ => SpawnOutcome.ok ⟨0, [0xFF], []⟩) "x").1
    (.FromUtf8 ⟨[0xFF]⟩) (by rfl)

/-- C10: `STDERR` and `Custom` errors display as `ERROR: ` followed by
the payload and an unmatched closing parenthesis, while decode and IO
errors display as the inner error's own display text. -/
theorem errors_display_format (s : String) :
    Errors.displayText (.STDERR s) = "ERROR: " ++ s ++ ")" ∧
    Errors.displayText (.Custom s) = "ERROR: " ++ s ++ ")" ∧
    (∀ u, Errors.displayText (.FromUtf8 u) = u.displayText) ∧
    (∀ m, Errors.displayText (.io m) = m) :=
  ⟨rfl, rfl, fun _ => rfl, fun _ => rfl⟩
